import Mathlib

/-
Verification of the notebook-to-Fabric-format converter and the agent
lifecycle operations of the fabric_notebook_uploader repository.

The Python sources embedded here:
  - src/dad_fw/convert_nb.py          (module-level converter)
  - src/dad_fw/core/data_agent.py     (DataAgent class: converter method,
                                       upload_to_fabric, run_in_fabric, create)
  - src/dad_fw/core/fabric_api.py     (validate_workspace_id)

Python strings are modelled as Lean String (a wrapper around List Char);
machine-level details (UTF-8 byte positions) do not matter for these
functions, which operate line-by-line and character-by-character.
Remote collaborators (the Fabric workspace API) are passed in as explicit
function arguments, and side effects (job submissions, config saves,
file writes) are returned as explicit data.
-/

/-- Decidable equality for Except values, used to evaluate the models
of fallible operations on concrete inputs. -/
def exceptDecEqFn {ε α : Type} [DecidableEq ε] [DecidableEq α] :
    DecidableEq (Except ε α) := fun a b =>
  match a, b with
  | Except.ok x, Except.ok y =>
      if h : x = y then Decidable.isTrue (h ▸ rfl)
      else Decidable.isFalse (fun he => h (Except.ok.inj he))
  | Except.error x, Except.error y =>
      if h : x = y then Decidable.isTrue (h ▸ rfl)
      else Decidable.isFalse (fun he => h (Except.error.inj he))
  | Except.ok _, Except.error _ => Decidable.isFalse (fun he => Except.noConfusion he)
  | Except.error _, Except.ok _ => Decidable.isFalse (fun he => Except.noConfusion he)

instance {ε α : Type} [DecidableEq ε] [DecidableEq α] :
    DecidableEq (Except ε α) := exceptDecEqFn

namespace FabricNB

/-- Python truthiness of an optional string value: None and the empty
string are falsy, every other string is truthy.  This models expressions
such as the Python test `if config.get("notebook_id"):`. -/
def truthy : Option String → Bool
  | none => false
  | some s => !(s == "")

/-- Character-list prefix test; models Python str.startswith at the
level of characters. -/
def charsBeginWith : List Char → List Char → Bool
  | _, [] => true
  | [], _ :: _ => false
  | c :: rest, d :: dsub => c == d && charsBeginWith rest dsub

/-- Models Python str.startswith. -/
def strBeginsWith (s pre : String) : Bool :=
  charsBeginWith s.data pre.data

/-- Whitespace characters stripped by Python str.rstrip with no
argument (the ASCII ones; the inputs here are ASCII). -/
def pyIsSpace (c : Char) : Bool :=
  c == ' ' || c == '\t' || c == '\n' || c == '\r' || c == '\x0b' || c == '\x0c'

/-- Models Python str.rstrip(): remove all trailing whitespace. -/
def pyRstrip (s : String) : String :=
  String.mk ((s.data.reverse.dropWhile pyIsSpace).reverse)

/-- Models Python "".join(chunks). -/
def joinChunks : List String → String
  | [] => ""
  | s :: rest => s ++ joinChunks rest

/-- Final normalization step of both converters
(`result = result.rstrip() + "\n"`, convert_nb.py line 141 and
data_agent.py line 260). -/
def finalize (chunks : List String) : String :=
  pyRstrip (joinChunks chunks) ++ "\n"

/-- A notebook cell: a code cell (ordered source lines plus whether the
metadata carries a "parameters" tag) or a markdown cell (source lines).
This is the shape of the JSON cell dictionaries read by the converter. -/
inductive Cell where
  | code (source : List String) (isParam : Bool)
  | markdown (source : List String)
deriving DecidableEq

/-- Source lines of a cell. -/
def cellSource : Cell → List String
  | .code src _ => src
  | .markdown src => src

/-- Section marker emitted for a code cell (convert_nb.py lines 74-77). -/
def cellMarker (isParam : Bool) : String :=
  if isParam then "# PARAMETERS CELL ********************\n\n"
  else "# CELL ********************\n\n"

/-- Section marker emitted for a markdown cell (convert_nb.py line 132). -/
def markdownMarker : String := "# MARKDOWN ********************\n\n"

/-- Directive-echo prefix applied to every line of a magic cell
(`f"# MAGIC {line}"`). -/
def magicLine (line : String) : String := "# MAGIC " ++ line

/-- Comment prefix applied to every markdown line (`f"# {line}"`). -/
def markdownLine (line : String) : String := "# " ++ line

/-- Per-cell metadata footer naming a language and the fixed
language_group (convert_nb.py lines 85-89 and data_agent.py
_add_cell_metadata). -/
def metaFooter (language : String) : List String :=
  ["# METADATA ********************\n\n",
   "# META \x7b\n",
   "# META   \"language\": \"" ++ language ++ "\",\n",
   "# META   \"language_group\": \"synapse_pyspark\"\n",
   "# META \x7d\n\n"]

/-- Chunks appended for one code cell by the module-level converter
convert_ipynb_to_fabric_python (convert_nb.py lines 57-128): skip empty
cells, emit the section marker, then branch on the first line:
%%sql, %%configure, other %% magics (no footer), single-% magics
(python footer), and plain code (python footer). -/
def processCodeCellNB (source : List String) (isParam : Bool) : List String :=
  if source.isEmpty then []
  else
    let first := source.headD ""
    cellMarker isParam ::
    (if strBeginsWith first "%%sql" then
       source.map magicLine ++ ["\n\n"] ++ metaFooter "sparksql"
     else if strBeginsWith first "%%configure" then
       source.map magicLine ++ ["\n\n"] ++ metaFooter "python"
     else if strBeginsWith first "%%" then
       source.map magicLine ++ ["\n\n"]
     else if strBeginsWith first "%" then
       source.map magicLine ++ ["\n\n"] ++ metaFooter "python"
     else
       source ++ ["\n\n"] ++ metaFooter "python")

/-- Chunks appended for one cell by the module-level converter
(convert_nb.py lines 56-135).  Markdown cells are not guarded by an
empty-source check: the MARKDOWN marker is emitted unconditionally. -/
def processCellNB : Cell → List String
  | .code source isParam => processCodeCellNB source isParam
  | .markdown source =>
      markdownMarker :: source.map markdownLine ++ ["\n\n"]

/-- Fixed opening lines of the document header
(convert_nb.py lines 36-41). -/
def headerStart : List String :=
  ["# Fabric notebook source\n\n",
   "# METADATA ********************\n\n",
   "# META \x7b\n",
   "# META   \"kernel_info\": \x7b\n",
   "# META     \"name\": \"synapse_pyspark\"\n"]

/-- Nested storage-dependency (lakehouse) block, conditionally appended
(convert_nb.py lines 44-50), with the three values rendered inside
quoted strings. -/
def lakehouseMetaLines (workspace_id lakehouse_id lakehouse_name : String) : List String :=
  ["# META   \x7d,\n",
   "# META   \"dependencies\": \x7b\n",
   "# META     \"lakehouse\": \x7b\n",
   "# META       \"default_lakehouse\": \"" ++ lakehouse_id ++ "\",\n",
   "# META       \"default_lakehouse_name\": \"" ++ lakehouse_name ++ "\",\n",
   "# META       \"default_lakehouse_workspace_id\": \"" ++ workspace_id ++ "\",\n",
   "# META     \x7d\n"]

/-- Fixed closing lines of the document header
(convert_nb.py lines 52-53). -/
def headerEnd : List String :=
  ["# META   \x7d\n", "# META \x7d\n\n"]

/-- Gate for the lakehouse block (convert_nb.py line 43):
`include_lakehouse_metadata and all([workspace_id, lakehouse_id,
lakehouse_name])`, where values are Python-truthy strings. -/
def lakehouseCond (include_lakehouse_metadata : Bool)
    (workspace_id lakehouse_id lakehouse_name : Option String) : Bool :=
  include_lakehouse_metadata && truthy workspace_id && truthy lakehouse_id &&
    truthy lakehouse_name

/-- Document header built by the module-level converter
(convert_nb.py lines 36-53). -/
def buildHeader (include_lakehouse_metadata : Bool)
    (workspace_id lakehouse_id lakehouse_name : Option String) : List String :=
  headerStart ++
  (if lakehouseCond include_lakehouse_metadata workspace_id lakehouse_id lakehouse_name
   then lakehouseMetaLines (workspace_id.getD "") (lakehouse_id.getD "")
          (lakehouse_name.getD "")
   else []) ++
  headerEnd

/-- All chunks accumulated in fabric_content by the module-level
converter before joining (convert_nb.py lines 33-135). -/
def convertChunksNB (cells : List Cell) (include_lakehouse_metadata : Bool)
    (workspace_id lakehouse_id lakehouse_name : Option String) : List String :=
  buildHeader include_lakehouse_metadata workspace_id lakehouse_id lakehouse_name ++
    cells.flatMap processCellNB

/-- The module-level converter convert_ipynb_to_fabric_python
(convert_nb.py lines 5-149), as the pure text transformation: cell list
and options in, final document text out (file I/O elided). -/
def convert_ipynb_to_fabric_python (cells : List Cell)
    (include_lakehouse_metadata : Bool)
    (workspace_id lakehouse_id lakehouse_name : Option String) : String :=
  finalize (convertChunksNB cells include_lakehouse_metadata workspace_id
    lakehouse_id lakehouse_name)

namespace DataAgent

/-- Chunks appended for one code cell by
DataAgent.convert_ipynb_to_fabric_python (data_agent.py lines 198-247).
Unlike the module-level converter, the combined branch
`elif first_line.startswith("%%") or first_line.startswith("%")`
(line 235) appends a python metadata footer for every generic magic. -/
def processCodeCellDA (source : List String) (isParam : Bool) : List String :=
  if source.isEmpty then []
  else
    let first := source.headD ""
    cellMarker isParam ::
    (if strBeginsWith first "%%sql" then
       source.map magicLine ++ ["\n\n"] ++ metaFooter "sparksql"
     else if strBeginsWith first "%%configure" then
       source.map magicLine ++ ["\n\n"] ++ metaFooter "python"
     else if strBeginsWith first "%%" || strBeginsWith first "%" then
       source.map magicLine ++ ["\n\n"] ++ metaFooter "python"
     else
       source ++ ["\n\n"] ++ metaFooter "python")

/-- Chunks appended for one cell by the DataAgent converter
(data_agent.py lines 197-254). -/
def processCellDA : Cell → List String
  | .code source isParam => processCodeCellDA source isParam
  | .markdown source =>
      markdownMarker :: source.map markdownLine ++ ["\n\n"]

/-- Fixed document header of the DataAgent converter (data_agent.py
lines 188-194); this variant never emits a lakehouse block. -/
def headerDA : List String :=
  headerStart ++ headerEnd

/-- DataAgent.convert_ipynb_to_fabric_python (data_agent.py lines
164-267) as the pure text transformation (file I/O and output-path
bookkeeping elided). -/
def convert_ipynb_to_fabric_python (cells : List Cell) : String :=
  finalize (headerDA ++ cells.flatMap processCellDA)

end DataAgent

/-- Lower-casing of a string, character by character; models Python
str.lower on the ASCII inputs used here. -/
def pyLower (s : String) : String :=
  String.mk (s.data.map Char.toLower)

/-- Fuel-indexed worker for replChars; the fuel strictly dominates the
length of the remaining list at every call, so the fuel-exhausted
branch is never reached from replChars. -/
def replCharsFuel : Nat → List Char → List Char → List Char → List Char
  | 0, _, _, l => l
  | _ + 1, _, _, [] => []
  | fuel + 1, pat, rep, c :: rest =>
      if charsBeginWith (c :: rest) pat && !pat.isEmpty then
        rep ++ replCharsFuel fuel pat rep (rest.drop (pat.length - 1))
      else c :: replCharsFuel fuel pat rep rest

/-- Replace every non-overlapping occurrence of pat by rep, left to
right; models Python str.replace for the non-empty patterns used in
this repository. -/
def replChars (pat rep l : List Char) : List Char :=
  replCharsFuel l.length pat rep l

/-- Models Python s.replace(pat, rep) for non-empty pat. -/
def pyReplace (s pat rep : String) : String :=
  String.mk (replChars pat.data rep.data s.data)

/-- Character-list containment test; models the Python expression
`sub in s` on strings. -/
def charsHaveSub : List Char → List Char → Bool
  | _, [] => true
  | [], _ :: _ => false
  | c :: rest, d :: dsub =>
      charsBeginWith (c :: rest) (d :: dsub) || charsHaveSub rest (d :: dsub)

/-- Models the Python substring test `sub in s`. -/
def strHasSub (s sub : String) : Bool :=
  charsHaveSub s.data sub.data

/-- Folder-name normalization performed in DataAgent.__init__
(data_agent.py line 14):
`name.replace(" ", "_").replace("-", "_").lower()`. -/
def normalizeFolderName (name : String) : String :=
  pyLower (pyReplace (pyReplace name " " "_") "-" "_")

/-- FabricAPI.validate_workspace_id (fabric_api.py lines 362-370):
a non-empty string of length 36 containing exactly 4 dashes. -/
def validate_workspace_id (workspace_id : String) : Bool :=
  if workspace_id == "" then false
  else workspace_id.length == 36 && workspace_id.data.count '-' == 4

/-- A remote notebook item as returned by the Workspace API lookups. -/
structure RemoteItem where
  id : String
  display_name : String
deriving DecidableEq

/-- The existing-notebook search of DataAgent.upload_to_fabric
(data_agent.py lines 301-315): first look up the stored notebook_id
when it is truthy; only when that lookup yields nothing, fall back to a
display-name search.  The two Workspace API calls are passed in as
functions of the id and of the name respectively. -/
def upload_find_existing (getNotebookById : String → Option RemoteItem)
    (findNotebookByName : String → Option RemoteItem)
    (stored_notebook_id : Option String) (display_name : String) :
    Option RemoteItem :=
  let afterIdLookup : Option RemoteItem :=
    if truthy stored_notebook_id then getNotebookById (stored_notebook_id.getD "")
    else none
  match afterIdLookup with
  | some item => some item
  | none => findNotebookByName display_name

/-- Workspace-id resolution shared by upload_to_fabric (lines 287-292)
and run_in_fabric (lines 403-408): explicit argument first, then the
stored config value, else failure (none). -/
def resolveWorkspaceId (explicit stored : Option String) : Option String :=
  if truthy explicit then explicit
  else if truthy stored then stored
  else none

/-- A data-agent item as listed by
FabricAPI.list_data_agents_in_workspace. -/
structure FabricAgent where
  id : String
  displayName : String
deriving DecidableEq

/-- The per-agent match test of run_in_fabric (data_agent.py lines
444-455): compare lower-cased names after underscore normalization,
or exact lower-cased equality, or substring containment. -/
def agentNameMatches (our_name : String) (agent : FabricAgent) : Bool :=
  let agent_display_name := pyLower agent.displayName
  let our := pyLower our_name
  let normalized_agent_name :=
    pyReplace (pyReplace agent_display_name " " "_") "-" "_"
  let normalized_our_name := pyReplace (pyReplace our " " "_") "-" "_"
  normalized_agent_name == normalized_our_name ||
    agent_display_name == our || strHasSub agent_display_name our

/-- Agent URL constructed in run_in_fabric (data_agent.py line 463). -/
def mkAgentUrl (workspace_id agent_id : String) : String :=
  "https://api.fabric.microsoft.com/v1/workspaces/" ++ workspace_id ++
    "/aiskills/" ++ agent_id ++ "/aiassistant/openai"

/-- Execution summary persisted as config["last_execution"]
(data_agent.py lines 477-483). -/
structure ExecSummary where
  job_id : String
  status : String
  success : Bool
  runtime : String
  timestamp : String
deriving DecidableEq

/-- The agent config document (config.json) fields touched by
run_in_fabric; absent or empty values are falsy. -/
structure AgentConfig where
  workspace_id : Option String
  notebook_id : Option String
  notebook_name : Option String
  agent_id : Option String
  agent_url : Option String
  status : Option String
  last_execution : Option ExecSummary
deriving DecidableEq

/-- Result dictionary returned by FabricAPI.run_notebook_by_name and
run_notebook_by_id after the job reached a terminal state. -/
structure RunResult where
  job_id : String
  status : String
  success : Bool
  total_runtime_str : String
deriving DecidableEq

/-- The result dictionary after run_in_fabric annotated it with the
discovery outcome (keys absent in Python are none here). -/
structure RunOutcome where
  base : RunResult
  agent_found : Option Bool
  agent_id : Option String
  agent_url : Option String
  agent_display_name : Option String
  agent_search_error : Option String
deriving DecidableEq

/-- A job submission to the Workspace API: run_notebook_by_name or
run_notebook_by_id (data_agent.py lines 422-431). -/
inductive RunCall where
  | byName (workspace_id notebook_name : String)
  | byId (workspace_id notebook_id : String)
deriving DecidableEq

/-- Local precondition failures raised by run_in_fabric before any job
is submitted (data_agent.py lines 403-419). -/
inductive RunError where
  | noWorkspaceId
  | invalidWorkspaceId (ws : String)
  | noNotebookReference
deriving DecidableEq

/-- Externally visible side effects of one run_in_fabric call: the jobs
submitted to the workspace and the configs saved to disk. -/
structure RunEffects where
  jobs : List RunCall
  saves : List AgentConfig
deriving DecidableEq

/-- Outcome of the best-effort post-run discovery step. -/
structure DiscoveryOutcome where
  agent_found : Option Bool
  agent_id : Option String
  agent_url : Option String
  agent_display_name : Option String
  agent_search_error : Option String
deriving DecidableEq

/-- The post-run discovery step of run_in_fabric (data_agent.py lines
433-474).  listAgents models FabricAPI.list_data_agents_in_workspace;
an exception raised while listing or matching is modelled by
Except.error and lands in the broad `except` clause that records
agent_found = False plus the error text. -/
def discoverAgent (listAgents : String → Except String (List FabricAgent))
    (target_workspace_id agent_name : String) (success : Bool) :
    DiscoveryOutcome :=
  if success then
    match listAgents target_workspace_id with
    | Except.ok agents =>
        match agents.filter (agentNameMatches agent_name) with
        | [] => ⟨some false, none, none, none, none⟩
        | a :: _ =>
            ⟨some true, some a.id, some (mkAgentUrl target_workspace_id a.id),
             some a.displayName, none⟩
    | Except.error e => ⟨some false, none, none, none, some e⟩
  else ⟨none, none, none, none, none⟩

namespace DataAgent

/-- DataAgent.run_in_fabric (data_agent.py lines 395-495).  Collaborator
calls are passed in as functions; the returned RunEffects lists the job
submissions and config saves the call performed, in order. -/
def run_in_fabric (runJob : RunCall → RunResult)
    (listAgents : String → Except String (List FabricAgent))
    (agent_name : String) (now : String)
    (config : AgentConfig) (workspace_id : Option String) :
    Except RunError RunOutcome × RunEffects :=
  match resolveWorkspaceId workspace_id config.workspace_id with
  | none => (Except.error RunError.noWorkspaceId, ⟨[], []⟩)
  | some target =>
    if validate_workspace_id target then
      if !truthy config.notebook_id && !truthy config.notebook_name then
        (Except.error RunError.noNotebookReference, ⟨[], []⟩)
      else
        let call : RunCall :=
          if truthy config.notebook_name then
            RunCall.byName target (config.notebook_name.getD "")
          else
            RunCall.byId target (config.notebook_id.getD "")
        let result := runJob call
        let d := discoverAgent listAgents target agent_name result.success
        let outcome : RunOutcome :=
          ⟨result, d.agent_found, d.agent_id, d.agent_url,
           d.agent_display_name, d.agent_search_error⟩
        let summary : ExecSummary :=
          ⟨result.job_id, result.status, result.success,
           result.total_runtime_str, now⟩
        let newStatus : String :=
          if result.success then "executed_successfully" else "execution_failed"
        let savedConfig : AgentConfig :=
          AgentConfig.mk config.workspace_id config.notebook_id
            config.notebook_name
            (if truthy d.agent_id then d.agent_id else config.agent_id)
            (if truthy d.agent_id then d.agent_url else config.agent_url)
            (some newStatus) (some summary)
        (Except.ok outcome, ⟨[call], [savedConfig]⟩)
    else
      (Except.error (RunError.invalidWorkspaceId target), ⟨[], []⟩)

end DataAgent

/-- Contents of a file written by DataAgent.create; config.json contents
are determined by the default config (agent name, folder name, creation
date, all remote fields empty), the other files by template text with
literal placeholder replacement. -/
inductive FileData where
  | configJson (agent_name folder_name created_date : String)
  | text (s : String)
deriving DecidableEq

/-- On-disk state of one agent directory: whether the directory exists
and its files (name, contents). -/
structure AgentDirState where
  present : Bool
  files : List (String × FileData)
deriving DecidableEq

/-- Write (create or overwrite) one file in the directory listing. -/
def setFile : List (String × FileData) → String → FileData → List (String × FileData)
  | [], name, d => [(name, d)]
  | (n, c) :: rest, name, d =>
      if n == name then (name, d) :: rest else (n, c) :: setFile rest name d

namespace DataAgent

/-- DataAgent.create (data_agent.py lines 108-122) together with its
helpers _create_notebook, _create_readme, _copy_testing_template (lines
124-157): fail when the agent directory exists and force is false,
otherwise create the directory and write config.json, the notebook
(when the notebook template exists, with the data-agent-name placeholder
replaced), the README (when its template exists, with three placeholders
replaced), and a copy of the testing template (when it exists).  The
directory state is threaded explicitly; the error branch returns it
untouched, exactly as the Python raise precedes every write. -/
def create (name created_date now_str : String)
    (notebookTemplate readmeTemplate testingTemplate : Option String)
    (st : AgentDirState) (force : Bool) :
    Except String Unit × AgentDirState :=
  let folder := normalizeFolderName name
  if st.present && !force then
    (Except.error ("Agent \x27" ++ folder ++ "\x27 already exists"), st)
  else
    let files0 := setFile st.files "config.json"
      (FileData.configJson name folder created_date)
    let files1 :=
      match notebookTemplate with
      | some t => setFile files0 (folder ++ ".ipynb")
          (FileData.text (pyReplace t "data-agent-name" name))
      | none => files0
    let files2 :=
      match readmeTemplate with
      | some t => setFile files1 "README.md"
          (FileData.text (pyReplace (pyReplace (pyReplace t
            "\x7bagent_name\x7d" name) "\x7bfolder_name\x7d" folder)
            "\x7bcreated_date\x7d" now_str))
      | none => files1
    let files3 :=
      match testingTemplate with
      | some t => setFile files2 (folder ++ "_testing.ipynb") (FileData.text t)
      | none => files2
    (Except.ok (), AgentDirState.mk true files3)

end DataAgent

/-- Holds of the character list that follows the final newline marker
when it is either empty or starts with a non-whitespace character (so
no blank line precedes the final newline). -/
def noTrailingBlank : List Char → Bool
  | [] => true
  | c :: _ => !pyIsSpace c

/-- The document text ends with exactly one newline character, and the
character before it (when there is one) is not whitespace, so no
trailing blank line precedes it. -/
def endsWithExactlyOneNewline (s : String) : Bool :=
  match s.data.reverse with
  | [] => false
  | c :: rest => c == '\n' && noTrailingBlank rest

/-- Is this output chunk one of the three per-cell section markers. -/
def isSectionMarker (s : String) : Bool :=
  s == cellMarker true || s == cellMarker false || s == markdownMarker

/-- Does this cell produce an output section (code cells are skipped
when empty; markdown cells always produce a MARKDOWN section). -/
def emitsSection : Cell → Bool
  | .code src _ => !src.isEmpty
  | .markdown _ => true

/-- The section marker a cell produces. -/
def markerOf : Cell → String
  | .code _ p => cellMarker p
  | .markdown _ => markdownMarker

/- ------------------------------------------------------------------
Helper lemmas
------------------------------------------------------------------ -/

theorem string_eq_of_data {s t : String} (h : s.data = t.data) : s = t :=
  congrArg String.mk h

theorem concat3_data_getD (pre v suf : String) (k : Nat) (d : Char)
    (h : k < pre.data.length) :
    (pre ++ v ++ suf).data.getD k d = pre.data.getD k d := by
  rw [String.data_append, String.data_append, List.append_assoc,
    List.getD_append _ _ _ _ h]

theorem dropWhile_head_not (p : Char → Bool) (l : List Char) :
    ∀ c rest, l.dropWhile p = c :: rest → p c = false := by
  induction l with
  | nil => intro c rest h; simp [List.dropWhile] at h
  | cons a t ih =>
      intro c rest h
      rw [List.dropWhile_cons] at h
      by_cases hp : p a
      · rw [if_pos hp] at h
        exact ih c rest h
      · rw [if_neg hp] at h
        cases h
        simpa using hp

theorem finalize_ends_clean (chunks : List String) :
    endsWithExactlyOneNewline (finalize chunks) = true := by
  unfold finalize
  generalize joinChunks chunks = s
  have hdata : (pyRstrip s ++ "\n").data =
      (s.data.reverse.dropWhile pyIsSpace).reverse ++ ['\n'] := by
    rw [String.data_append]; rfl
  unfold endsWithExactlyOneNewline
  rw [hdata, List.reverse_append, List.reverse_reverse]
  cases hx : s.data.reverse.dropWhile pyIsSpace with
  | nil => simp [noTrailingBlank]
  | cons c2 r =>
      simp [noTrailingBlank, dropWhile_head_not pyIsSpace _ c2 r hx]

/- ------------------------------------------------------------------
C4: the converted document ends with exactly one newline
------------------------------------------------------------------ -/

/-- C4: for every input notebook document and every option choice, the
text returned by the converter (both the module-level converter and the
DataAgent method) ends with exactly one newline character with no
trailing blank line before it, regardless of trailing whitespace or
newlines in the cell sources. -/
theorem converted_document_ends_with_single_newline (cells : List Cell)
    (include_lakehouse_metadata : Bool)
    (workspace_id lakehouse_id lakehouse_name : Option String) :
    endsWithExactlyOneNewline
      (convert_ipynb_to_fabric_python cells include_lakehouse_metadata
        workspace_id lakehouse_id lakehouse_name) = true ∧
    endsWithExactlyOneNewline
      (DataAgent.convert_ipynb_to_fabric_python cells) = true :=
  ⟨finalize_ends_clean _, finalize_ends_clean _⟩

/- ------------------------------------------------------------------
C2: empty-cell skipping
------------------------------------------------------------------ -/

/-- C2 counterexample: a MarkdownCell with zero source lines does
contribute bytes to the output: converting a document holding only an
empty markdown cell differs from converting the empty document, and
the per-cell output of the empty markdown cell is the MARKDOWN section
marker plus a blank-line separator, not nothing. -/
theorem empty_markdown_cell_emits_marker_cex :
    convert_ipynb_to_fabric_python [Cell.markdown []] false none none none ≠
      convert_ipynb_to_fabric_python [] false none none none ∧
    processCellNB (Cell.markdown []) = [markdownMarker, "\n\n"] := by
  constructor
  · decide
  · rfl

/-- C2 amended: a CodeCell with zero source lines contributes zero
bytes to the output (deleting it anywhere in the document leaves the
converted text unchanged, and its chunk list is empty), but a
MarkdownCell with zero source lines still emits the MARKDOWN section
marker followed by the blank-line separator. -/
theorem empty_code_cell_skipped (pre post : List Cell) (p : Bool)
    (include_lakehouse_metadata : Bool)
    (workspace_id lakehouse_id lakehouse_name : Option String) :
    convert_ipynb_to_fabric_python (pre ++ Cell.code [] p :: post)
        include_lakehouse_metadata workspace_id lakehouse_id lakehouse_name =
      convert_ipynb_to_fabric_python (pre ++ post)
        include_lakehouse_metadata workspace_id lakehouse_id lakehouse_name ∧
    processCellNB (Cell.code [] p) = [] ∧
    processCellNB (Cell.markdown []) = [markdownMarker, "\n\n"] := by
  refine ⟨?_, rfl, rfl⟩
  unfold convert_ipynb_to_fabric_python convertChunksNB
  rw [List.flatMap_append, List.flatMap_cons, List.flatMap_append]
  rfl

/- ------------------------------------------------------------------
C1: per-cell metadata footers by classification
------------------------------------------------------------------ -/

theorem charsBeginWith_append (l p q : List Char)
    (h : charsBeginWith l (p ++ q) = true) : charsBeginWith l p = true := by
  induction p generalizing l with
  | nil => cases l <;> rfl
  | cons d ds ih =>
      cases l with
      | nil => simp [charsBeginWith] at h
      | cons c cs =>
          simp only [charsBeginWith, List.cons_append, Bool.and_eq_true] at h ⊢
          exact ⟨h.1, ih cs h.2⟩

theorem strBeginsWith_sql_to_double (s : String)
    (h : strBeginsWith s "%%sql" = true) : strBeginsWith s "%%" = true :=
  charsBeginWith_append s.data ['%', '%'] ['s', 'q', 'l'] h

theorem strBeginsWith_configure_to_double (s : String)
    (h : strBeginsWith s "%%configure" = true) : strBeginsWith s "%%" = true :=
  charsBeginWith_append s.data ['%', '%'] ['c', 'o', 'n', 'f', 'i', 'g', 'u', 'r', 'e'] h

theorem magicLine_ne_metadataMarker (l : String) :
    magicLine l ≠ "# METADATA ********************\n\n" := by
  intro he
  have h3 : (magicLine l).data.getD 3 'Z' = 'A' := by
    unfold magicLine
    rw [String.data_append, List.getD_append _ _ _ _ (by decide)]
    decide
  rw [he] at h3
  revert h3
  decide

/-- C1 counterexample: the spec example line "%magic\n" is a
generic-magic first line (single percent, not %%sql, not %%configure),
yet the module-level converter appends the full python metadata footer
after its body, and the footer marker line is among the emitted
chunks. -/
theorem single_percent_magic_gets_footer_cex :
    strBeginsWith "%magic\n" "%" = true ∧
    strBeginsWith "%magic\n" "%%" = false ∧
    strBeginsWith "%magic\n" "%%sql" = false ∧
    strBeginsWith "%magic\n" "%%configure" = false ∧
    processCellNB (Cell.code ["%magic\n"] false) =
      ["# CELL ********************\n\n", "# MAGIC %magic\n", "\n\n"] ++
        metaFooter "python" ∧
    "# METADATA ********************\n\n" ∈ processCellNB (Cell.code ["%magic\n"] false) := by
  decide

/-- C1 amended: in the module-level converter only double-percent
generic magics (first line begins with %% but neither %%sql nor
%%configure) are echoed with the MAGIC prefix and receive NO per-cell
metadata footer; single-percent generic magics receive a python footer,
and in DataAgent.convert_ipynb_to_fabric_python every generic magic
receives a python footer.  The query-magic (%%sql), configure-magic
(%%configure) and plain classifications receive a footer naming a
language (sparksql or python) and language_group in both converters. -/
theorem magic_footer_classification (src : List String) (p : Bool)
    (hne : src.isEmpty = false) :
    (strBeginsWith (src.headD "") "%%" = true →
     strBeginsWith (src.headD "") "%%sql" = false →
     strBeginsWith (src.headD "") "%%configure" = false →
       processCellNB (Cell.code src p) =
         cellMarker p :: (src.map magicLine ++ ["\n\n"]) ∧
       "# METADATA ********************\n\n" ∉ processCellNB (Cell.code src p) ∧
       DataAgent.processCellDA (Cell.code src p) =
         cellMarker p :: (src.map magicLine ++ ["\n\n"] ++ metaFooter "python")) ∧
    (strBeginsWith (src.headD "") "%" = true →
     strBeginsWith (src.headD "") "%%" = false →
       processCellNB (Cell.code src p) =
         cellMarker p :: (src.map magicLine ++ ["\n\n"] ++ metaFooter "python") ∧
       DataAgent.processCellDA (Cell.code src p) =
         cellMarker p :: (src.map magicLine ++ ["\n\n"] ++ metaFooter "python")) ∧
    (strBeginsWith (src.headD "") "%%sql" = true →
       processCellNB (Cell.code src p) =
         cellMarker p :: (src.map magicLine ++ ["\n\n"] ++ metaFooter "sparksql") ∧
       DataAgent.processCellDA (Cell.code src p) =
         cellMarker p :: (src.map magicLine ++ ["\n\n"] ++ metaFooter "sparksql")) ∧
    (strBeginsWith (src.headD "") "%%sql" = false →
     strBeginsWith (src.headD "") "%%configure" = true →
       processCellNB (Cell.code src p) =
         cellMarker p :: (src.map magicLine ++ ["\n\n"] ++ metaFooter "python") ∧
       DataAgent.processCellDA (Cell.code src p) =
         cellMarker p :: (src.map magicLine ++ ["\n\n"] ++ metaFooter "python")) ∧
    (strBeginsWith (src.headD "") "%" = false →
     strBeginsWith (src.headD "") "%%" = false →
     strBeginsWith (src.headD "") "%%sql" = false →
     strBeginsWith (src.headD "") "%%configure" = false →
       processCellNB (Cell.code src p) =
         cellMarker p :: (src ++ ["\n\n"] ++ metaFooter "python") ∧
       DataAgent.processCellDA (Cell.code src p) =
         cellMarker p :: (src ++ ["\n\n"] ++ metaFooter "python")) := by
  refine ⟨?_, ?_, ?_, ?_, ?_⟩
  · intro h2 hsql hconf
    simp only [List.headD_eq_head?] at h2 hsql hconf
    refine ⟨?_, ?_, ?_⟩
    · simp [processCellNB, processCodeCellNB, hne, h2, hsql, hconf]
    · intro hmem
      rw [show processCellNB (Cell.code src p) =
          cellMarker p :: (src.map magicLine ++ ["\n\n"]) from by
            simp [processCellNB, processCodeCellNB, hne, h2, hsql, hconf]] at hmem
      rcases List.mem_cons.mp hmem with h | h
      · cases p <;> revert h <;> decide
      · rcases List.mem_append.mp h with h | h
        · rcases List.mem_map.mp h with ⟨line, _, hline⟩
          exact magicLine_ne_metadataMarker line hline
        · revert h; decide
    · simp [DataAgent.processCellDA, DataAgent.processCodeCellDA, hne, h2, hsql, hconf]
  · intro h1 h2
    have hsql : strBeginsWith (src.headD "") "%%sql" = false := by
      cases hc : strBeginsWith (src.headD "") "%%sql"
      · rfl
      · rw [strBeginsWith_sql_to_double _ hc] at h2; exact absurd h2 (by decide)
    have hconf : strBeginsWith (src.headD "") "%%configure" = false := by
      cases hc : strBeginsWith (src.headD "") "%%configure"
      · rfl
      · rw [strBeginsWith_configure_to_double _ hc] at h2; exact absurd h2 (by decide)
    simp only [List.headD_eq_head?] at h1 h2 hsql hconf
    constructor
    · simp [processCellNB, processCodeCellNB, hne, h1, h2, hsql, hconf]
    · simp [DataAgent.processCellDA, DataAgent.processCodeCellDA, hne, h1, h2, hsql, hconf]
  · intro hsql
    simp only [List.headD_eq_head?] at hsql
    constructor
    · simp [processCellNB, processCodeCellNB, hne, hsql]
    · simp [DataAgent.processCellDA, DataAgent.processCodeCellDA, hne, hsql]
  · intro hsql hconf
    simp only [List.headD_eq_head?] at hsql hconf
    constructor
    · simp [processCellNB, processCodeCellNB, hne, hsql, hconf]
    · simp [DataAgent.processCellDA, DataAgent.processCodeCellDA, hne, hsql, hconf]
  · intro h1 h2 hsql hconf
    simp only [List.headD_eq_head?] at h1 h2 hsql hconf
    constructor
    · simp [processCellNB, processCodeCellNB, hne, h1, h2, hsql, hconf]
    · simp [DataAgent.processCellDA, DataAgent.processCodeCellDA, hne, h1, h2, hsql, hconf]

/-- C1 witness: the amended footer behavior evaluated on concrete cells
"%%magic\n", "%pip install x\n", "%%sql\n", "%%configure\n",
"print(1)\n". -/
theorem magic_footer_classification_witness :
    processCellNB (Cell.code ["%%magic\n"] false) =
      cellMarker false :: (["%%magic\n"].map magicLine ++ ["\n\n"]) ∧
    "# METADATA ********************\n\n" ∉ processCellNB (Cell.code ["%%magic\n"] false) ∧
    DataAgent.processCellDA (Cell.code ["%%magic\n"] false) =
      cellMarker false :: (["%%magic\n"].map magicLine ++ ["\n\n"] ++ metaFooter "python") ∧
    processCellNB (Cell.code ["%pip install x\n"] false) =
      cellMarker false :: (["%pip install x\n"].map magicLine ++ ["\n\n"] ++ metaFooter "python") ∧
    processCellNB (Cell.code ["%%sql\n"] false) =
      cellMarker false :: (["%%sql\n"].map magicLine ++ ["\n\n"] ++ metaFooter "sparksql") ∧
    processCellNB (Cell.code ["%%configure\n"] false) =
      cellMarker false :: (["%%configure\n"].map magicLine ++ ["\n\n"] ++ metaFooter "python") ∧
    processCellNB (Cell.code ["print(1)\n"] false) =
      cellMarker false :: (["print(1)\n"] ++ ["\n\n"] ++ metaFooter "python") := by
  have h1 := (magic_footer_classification ["%%magic\n"] false (by decide)).1
    (by decide) (by decide) (by decide)
  have h2 := (magic_footer_classification ["%pip install x\n"] false (by decide)).2.1
    (by decide) (by decide)
  have h3 := (magic_footer_classification ["%%sql\n"] false (by decide)).2.2.1
    (by decide)
  have h4 := (magic_footer_classification ["%%configure\n"] false (by decide)).2.2.2.1
    (by decide) (by decide)
  have h5 := (magic_footer_classification ["print(1)\n"] false (by decide)).2.2.2.2
    (by decide) (by decide) (by decide) (by decide)
  exact ⟨h1.1, h1.2.1, h1.2.2, h2.1, h3.1, h4.1, h5.1⟩

/- ------------------------------------------------------------------
C3: all-or-nothing lakehouse metadata block
------------------------------------------------------------------ -/

theorem valueLine_ne_of_getD12 (pre v suf f : String)
    (hlen : 12 < pre.data.length) (hp : pre.data.getD 12 'Z' = ' ')
    (hf : f.data.getD 12 'Z' ≠ ' ') : pre ++ v ++ suf ≠ f := by
  intro he
  apply hf
  rw [← he, concat3_data_getD pre v suf 12 'Z' hlen, hp]

theorem lakehouseMetaLines_disjoint (w l n : String) :
    ∀ s ∈ lakehouseMetaLines w l n, s ∉ headerStart ∧ s ∉ headerEnd := by
  intro s hs
  have hval : ∀ (pre v suf : String), 12 < pre.data.length →
      pre.data.getD 12 'Z' = ' ' →
      (pre ++ v ++ suf) ∉ headerStart ∧ (pre ++ v ++ suf) ∉ headerEnd := by
    intro pre v suf hlen hp
    constructor
    · intro hmem
      simp only [headerStart, List.mem_cons, List.not_mem_nil, or_false] at hmem
      rcases hmem with h | h | h | h | h <;>
        exact valueLine_ne_of_getD12 pre v suf _ hlen hp (by decide) h
    · intro hmem
      simp only [headerEnd, List.mem_cons, List.not_mem_nil, or_false] at hmem
      rcases hmem with h | h <;>
        exact valueLine_ne_of_getD12 pre v suf _ hlen hp (by decide) h
  simp only [lakehouseMetaLines, List.mem_cons, List.not_mem_nil, or_false] at hs
  rcases hs with h | h | h | h | h | h | h
  · subst h; exact ⟨by decide, by decide⟩
  · subst h; exact ⟨by decide, by decide⟩
  · subst h; exact ⟨by decide, by decide⟩
  · subst h; exact hval "# META       \"default_lakehouse\": \"" l "\",\n" (by decide) (by decide)
  · subst h; exact hval "# META       \"default_lakehouse_name\": \"" n "\",\n" (by decide) (by decide)
  · subst h; exact hval "# META       \"default_lakehouse_workspace_id\": \"" w "\",\n" (by decide) (by decide)
  · subst h; exact ⟨by decide, by decide⟩

/-- C3: the header contains the nested lakehouse (storage-dependency)
block exactly when the option is enabled and all three values
(workspace id, lakehouse id, lakehouse name) are present (truthy);
when the gate holds, the block occurs as one contiguous run with all
three values rendered in quoted strings and none of its lines occurring
elsewhere in the header; when the gate fails (any value missing), the
header is exactly the fixed base header and contains no line of the
block. -/
theorem lakehouse_metadata_all_or_nothing (include_lakehouse_metadata : Bool)
    (workspace_id lakehouse_id lakehouse_name : Option String) :
    (lakehouseCond include_lakehouse_metadata workspace_id lakehouse_id lakehouse_name = true →
       buildHeader include_lakehouse_metadata workspace_id lakehouse_id lakehouse_name =
         headerStart ++
           lakehouseMetaLines (workspace_id.getD "") (lakehouse_id.getD "")
             (lakehouse_name.getD "") ++ headerEnd ∧
       ∀ s ∈ lakehouseMetaLines (workspace_id.getD "") (lakehouse_id.getD "")
           (lakehouse_name.getD ""), s ∉ headerStart ∧ s ∉ headerEnd) ∧
    (lakehouseCond include_lakehouse_metadata workspace_id lakehouse_id lakehouse_name = false →
       buildHeader include_lakehouse_metadata workspace_id lakehouse_id lakehouse_name =
         headerStart ++ headerEnd ∧
       ∀ s ∈ lakehouseMetaLines (workspace_id.getD "") (lakehouse_id.getD "")
           (lakehouse_name.getD ""),
         s ∉ buildHeader include_lakehouse_metadata workspace_id lakehouse_id lakehouse_name) := by
  constructor
  · intro hc
    refine ⟨?_, lakehouseMetaLines_disjoint _ _ _⟩
    simp [buildHeader, hc]
  · intro hc
    have hb : buildHeader include_lakehouse_metadata workspace_id lakehouse_id lakehouse_name =
        headerStart ++ headerEnd := by
      simp [buildHeader, hc]
    refine ⟨hb, ?_⟩
    intro s hs
    rw [hb]
    intro hmem
    rcases List.mem_append.mp hmem with hm | hm
    · exact (lakehouseMetaLines_disjoint _ _ _ s hs).1 hm
    · exact (lakehouseMetaLines_disjoint _ _ _ s hs).2 hm

/-- C3 witness: with the option enabled and all three values present
the header is the base header with the block in the middle; dropping
one value (lakehouse name missing) yields exactly the base header. -/
theorem lakehouse_metadata_all_or_nothing_witness :
    buildHeader true (some "W") (some "L") (some "N") =
      headerStart ++ lakehouseMetaLines "W" "L" "N" ++ headerEnd ∧
    buildHeader true (some "W") (some "L") none = headerStart ++ headerEnd := by
  have h1 := (lakehouse_metadata_all_or_nothing true (some "W") (some "L") (some "N")).1 (by decide)
  have h2 := (lakehouse_metadata_all_or_nothing true (some "W") (some "L") none).2 (by decide)
  exact ⟨h1.1, h2.1⟩

/- ------------------------------------------------------------------
C5: cell-order preservation
------------------------------------------------------------------ -/

theorem isSectionMarker_false_of_count (s : String)
    (h : s.data.count '\n' ≤ 1) : isSectionMarker s = false := by
  have h1 : s ≠ cellMarker true := by
    intro he; rw [he] at h; revert h; decide
  have h2 : s ≠ cellMarker false := by
    intro he; rw [he] at h; revert h; decide
  have h3 : s ≠ markdownMarker := by
    intro he; rw [he] at h; revert h; decide
  simp only [isSectionMarker, Bool.or_eq_false_iff, beq_eq_false_iff_ne, ne_eq]
  exact ⟨⟨h1, h2⟩, h3⟩

theorem count_magicLine (l : String) :
    (magicLine l).data.count '\n' = l.data.count '\n' := by
  unfold magicLine
  rw [String.data_append, List.count_append]
  simp [show (("# MAGIC " : String).data.count '\n') = 0 from by decide]

theorem count_markdownLine (l : String) :
    (markdownLine l).data.count '\n' = l.data.count '\n' := by
  unfold markdownLine
  rw [String.data_append, List.count_append]
  simp [show (("# " : String).data.count '\n') = 0 from by decide]

theorem isSectionMarker_cellMarker (p : Bool) :
    isSectionMarker (cellMarker p) = true := by
  cases p <;> decide

theorem filter_marker_nil (chunks : List String)
    (H : ∀ x ∈ chunks, isSectionMarker x = false) :
    chunks.filter isSectionMarker = [] :=
  List.filter_eq_nil_iff.mpr (by simpa using H)

theorem footer_chunks_not_marker :
    ∀ x ∈ metaFooter "python", isSectionMarker x = false := by decide

theorem footer_chunks_not_marker_sql :
    ∀ x ∈ metaFooter "sparksql", isSectionMarker x = false := by decide

theorem body_chunks_not_marker (src : List String)
    (H : ∀ line ∈ src, line.data.count '\n' ≤ 1) (footer : List String)
    (Hf : ∀ x ∈ footer, isSectionMarker x = false) :
    ∀ x ∈ src.map magicLine ++ ["\n\n"] ++ footer, isSectionMarker x = false := by
  intro x hx
  rcases List.mem_append.mp hx with hx1 | hx1
  · rcases List.mem_append.mp hx1 with hx2 | hx2
    · rcases List.mem_map.mp hx2 with ⟨line, hline, rfl⟩
      exact isSectionMarker_false_of_count _
        (by rw [count_magicLine]; exact H line hline)
    · rcases List.mem_singleton.mp hx2 with rfl
      decide
  · exact Hf x hx1

theorem plain_chunks_not_marker (src : List String)
    (H : ∀ line ∈ src, line.data.count '\n' ≤ 1) :
    ∀ x ∈ src ++ ["\n\n"] ++ metaFooter "python", isSectionMarker x = false := by
  intro x hx
  rcases List.mem_append.mp hx with hx1 | hx1
  · rcases List.mem_append.mp hx1 with hx2 | hx2
    · exact isSectionMarker_false_of_count _ (H x hx2)
    · rcases List.mem_singleton.mp hx2 with rfl
      decide
  · exact footer_chunks_not_marker x hx1

theorem filter_processCellNB (c : Cell)
    (H : ∀ line ∈ cellSource c, line.data.count '\n' ≤ 1) :
    (processCellNB c).filter isSectionMarker =
      if emitsSection c then [markerOf c] else [] := by
  cases c with
  | code src p =>
      by_cases hempty : src.isEmpty
      · simp [processCellNB, processCodeCellNB, hempty, emitsSection]
      · have hne : src.isEmpty = false := by simpa using hempty
        have h068 : emitsSection (Cell.code src p) = true := by
          simp [emitsSection, hne]
        rw [h068, if_pos rfl]
        have hbody : ∀ body : List String,
            (∀ x ∈ body, isSectionMarker x = false) →
            (cellMarker p :: body).filter isSectionMarker = [markerOf (Cell.code src p)] := by
          intro body hb
          rw [List.filter_cons, if_pos (by rw [isSectionMarker_cellMarker])]
          rw [filter_marker_nil body hb]
          rfl
        have Hs : ∀ line ∈ src, line.data.count '\n' ≤ 1 := H
        simp only [processCellNB, processCodeCellNB]
        rw [if_neg (by simp [hne])]
        by_cases c1 : strBeginsWith (src.headD "") "%%sql"
        · rw [if_pos c1]
          exact hbody _ (by
            have := body_chunks_not_marker src Hs (metaFooter "sparksql")
              footer_chunks_not_marker_sql
            simpa using this)
        · rw [if_neg c1]
          by_cases c2 : strBeginsWith (src.headD "") "%%configure"
          · rw [if_pos c2]
            exact hbody _ (by
              have := body_chunks_not_marker src Hs (metaFooter "python")
                footer_chunks_not_marker
              simpa using this)
          · rw [if_neg c2]
            by_cases c3 : strBeginsWith (src.headD "") "%%"
            · rw [if_pos c3]
              exact hbody _ (by
                have := body_chunks_not_marker src Hs [] (by simp)
                simpa using this)
            · rw [if_neg c3]
              by_cases c4 : strBeginsWith (src.headD "") "%"
              · rw [if_pos c4]
                exact hbody _ (by
                  have := body_chunks_not_marker src Hs (metaFooter "python")
                    footer_chunks_not_marker
                  simpa using this)
              · rw [if_neg c4]
                exact hbody _ (by
                  have := plain_chunks_not_marker src Hs
                  simpa using this)
  | markdown src =>
      have Hs : ∀ line ∈ src, line.data.count '\n' ≤ 1 := H
      simp only [processCellNB]
      rw [show emitsSection (Cell.markdown src) = true from rfl, if_pos rfl]
      have hb : ∀ x ∈ src.map markdownLine, isSectionMarker x = false := by
        intro x hx
        rcases List.mem_map.mp hx with ⟨line, hline, rfl⟩
        exact isSectionMarker_false_of_count _
          (by rw [count_markdownLine]; exact Hs line hline)
      rw [List.filter_append, List.filter_cons,
        if_pos (by rw [show isSectionMarker markdownMarker = true from by decide]),
        filter_marker_nil _ hb,
        show (["\n\n"] : List String).filter isSectionMarker = [] from by decide]
      rfl

theorem valueLine_not_marker (pre v suf : String)
    (hlen : 3 < pre.data.length)
    (h2 : pre.data.getD 2 'Z' = 'M') (h3 : pre.data.getD 3 'Z' = 'E') :
    isSectionMarker (pre ++ v ++ suf) = false := by
  have e2 : (pre ++ v ++ suf).data.getD 2 'Z' = 'M' := by
    rw [concat3_data_getD pre v suf 2 'Z' (by omega)]; exact h2
  have e3 : (pre ++ v ++ suf).data.getD 3 'Z' = 'E' := by
    rw [concat3_data_getD pre v suf 3 'Z' hlen]; exact h3
  have n1 : pre ++ v ++ suf ≠ cellMarker true := by
    intro he; rw [he] at e2; revert e2; decide
  have n2 : pre ++ v ++ suf ≠ cellMarker false := by
    intro he; rw [he] at e2; revert e2; decide
  have n3 : pre ++ v ++ suf ≠ markdownMarker := by
    intro he; rw [he] at e3; revert e3; decide
  simp only [isSectionMarker, Bool.or_eq_false_iff, beq_eq_false_iff_ne, ne_eq]
  exact ⟨⟨n1, n2⟩, n3⟩

theorem filter_buildHeader (include_lakehouse_metadata : Bool)
    (workspace_id lakehouse_id lakehouse_name : Option String) :
    (buildHeader include_lakehouse_metadata workspace_id lakehouse_id
      lakehouse_name).filter isSectionMarker = [] := by
  apply filter_marker_nil
  intro a ha
  unfold buildHeader at ha
  rcases List.mem_append.mp ha with h1 | h1
  · rcases List.mem_append.mp h1 with h2 | h2
    · revert h2
      simp only [headerStart, List.mem_cons, List.not_mem_nil, or_false]
      rintro (rfl | rfl | rfl | rfl | rfl) <;> decide
    · by_cases hc : lakehouseCond include_lakehouse_metadata workspace_id
        lakehouse_id lakehouse_name
      · rw [if_pos hc] at h2
        revert h2
        simp only [lakehouseMetaLines, List.mem_cons, List.not_mem_nil, or_false]
        rintro (rfl | rfl | rfl | rfl | rfl | rfl | rfl)
        · decide
        · decide
        · decide
        · exact valueLine_not_marker _ _ _ (by decide) (by decide) (by decide)
        · exact valueLine_not_marker _ _ _ (by decide) (by decide) (by decide)
        · exact valueLine_not_marker _ _ _ (by decide) (by decide) (by decide)
        · decide
      · rw [if_neg hc] at h2
        simp at h2
  · revert h1
    simp only [headerEnd, List.mem_cons, List.not_mem_nil, or_false]
    rintro (rfl | rfl) <;> decide

theorem filter_flatMap_processCellNB (cells : List Cell)
    (H : ∀ c ∈ cells, ∀ line ∈ cellSource c, line.data.count '\n' ≤ 1) :
    (cells.flatMap processCellNB).filter isSectionMarker =
      (cells.filter emitsSection).map markerOf := by
  induction cells with
  | nil => rfl
  | cons c rest ih =>
      rw [List.flatMap_cons, List.filter_append,
        filter_processCellNB c (H c (by simp)), List.filter_cons]
      by_cases he : emitsSection c
      · rw [if_pos (by rw [he]), if_pos he, List.map_cons,
          ih (fun d hd => H d (by simp [hd]))]
        rfl
      · have he' : emitsSection c = false := by simpa using he
        rw [he']
        simp only [if_false, Bool.false_eq_true]
        rw [ih (fun d hd => H d (by simp [hd]))]
        rfl

/-- C5: conversion preserves cell order: under the standard notebook
invariant that each source line contains at most one newline character,
the sequence of section-marker chunks emitted by the module-level
converter equals, in order, the markers of the section-producing cells
of the input document; no reordering, duplication, or interleaving. -/
theorem conversion_preserves_cell_order (cells : List Cell)
    (include_lakehouse_metadata : Bool)
    (workspace_id lakehouse_id lakehouse_name : Option String)
    (H : ∀ c ∈ cells, ∀ line ∈ cellSource c, line.data.count '\n' ≤ 1) :
    (convertChunksNB cells include_lakehouse_metadata workspace_id
        lakehouse_id lakehouse_name).filter isSectionMarker =
      (cells.filter emitsSection).map markerOf := by
  unfold convertChunksNB
  rw [List.filter_append, filter_buildHeader, List.nil_append,
    filter_flatMap_processCellNB cells H]

/-- C5 witness: a four-cell document (plain code, markdown, empty code,
parameters-tagged code) yields exactly its three section markers in
input order. -/
theorem conversion_preserves_cell_order_witness :
    (convertChunksNB
        [Cell.code ["print(1)\n"] false, Cell.markdown ["hello\n"],
         Cell.code [] false, Cell.code ["x = 2\n"] true]
        false none none none).filter isSectionMarker =
      [cellMarker false, markdownMarker, cellMarker true] := by
  have h := conversion_preserves_cell_order
    [Cell.code ["print(1)\n"] false, Cell.markdown ["hello\n"],
     Cell.code [] false, Cell.code ["x = 2\n"] true]
    false none none none (by decide)
  rw [h]
  decide

/- ------------------------------------------------------------------
C6: upload looks up the stored remote id before the display name
------------------------------------------------------------------ -/

/-- C6: when the agent record stores a (truthy) remote notebook id and
the id lookup returns an item, the existing-notebook search of
upload_to_fabric resolves to that item for every possible behavior of
the name-based search, so the name search is never the deciding
lookup even when the two would disagree. -/
theorem upload_prefers_stored_id_lookup
    (getNotebookById findNotebookByName : String → Option RemoteItem)
    (stored_id display_name : String) (item : RemoteItem)
    (hid : stored_id ≠ "")
    (hfound : getNotebookById stored_id = some item) :
    upload_find_existing getNotebookById findNotebookByName
      (some stored_id) display_name = some item := by
  unfold upload_find_existing
  have ht : truthy (some stored_id) = true := by
    simp [truthy, beq_eq_false_iff_ne, hid]
  rw [if_pos ht]
  simp only [Option.getD_some]
  rw [hfound]

/-- C6 witness: a test double where the id lookup and the name lookup
resolve to different items; the id wins. -/
theorem upload_prefers_stored_id_lookup_witness :
    upload_find_existing (fun _ => some ⟨"item-by-id", "Agent A"⟩)
      (fun _ => some ⟨"item-by-name", "Agent B"⟩)
      (some "nid-123") "Agent B" = some ⟨"item-by-id", "Agent A"⟩ :=
  upload_prefers_stored_id_lookup (fun _ => some ⟨"item-by-id", "Agent A"⟩)
    (fun _ => some ⟨"item-by-name", "Agent B"⟩) "nid-123" "Agent B"
    ⟨"item-by-id", "Agent A"⟩ (by decide) rfl

/- ------------------------------------------------------------------
C7: run resolves workspace id and requires a notebook reference
------------------------------------------------------------------ -/

/-- C7: run_in_fabric resolves the workspace id preferring the explicit
argument over the stored value and fails (noWorkspaceId) when neither
is truthy; and when the resolved workspace id is valid but the record
holds neither a truthy notebook id nor a truthy notebook name, it fails
with the missing-notebook-reference error having submitted no job and
saved no config (the agent record is not modified). -/
theorem run_resolves_workspace_and_requires_notebook_reference
    (runJob : RunCall → RunResult)
    (listAgents : String → Except String (List FabricAgent))
    (agent_name now : String) (config : AgentConfig) (ws : Option String) :
    (truthy ws = true → resolveWorkspaceId ws config.workspace_id = ws) ∧
    (truthy ws = false → truthy config.workspace_id = true →
       resolveWorkspaceId ws config.workspace_id = config.workspace_id) ∧
    (truthy ws = false → truthy config.workspace_id = false →
       DataAgent.run_in_fabric runJob listAgents agent_name now config ws =
         (Except.error RunError.noWorkspaceId, ⟨[], []⟩)) ∧
    (∀ target, resolveWorkspaceId ws config.workspace_id = some target →
       validate_workspace_id target = true →
       truthy config.notebook_id = false → truthy config.notebook_name = false →
       DataAgent.run_in_fabric runJob listAgents agent_name now config ws =
         (Except.error RunError.noNotebookReference, ⟨[], []⟩)) := by
  refine ⟨?_, ?_, ?_, ?_⟩
  · intro h
    simp [resolveWorkspaceId, h]
  · intro h1 h2
    simp [resolveWorkspaceId, h1, h2]
  · intro h1 h2
    unfold DataAgent.run_in_fabric
    rw [show resolveWorkspaceId ws config.workspace_id = none from by
      simp [resolveWorkspaceId, h1, h2]]
  · intro target htarget hval hid hname
    unfold DataAgent.run_in_fabric
    rw [htarget]
    simp only [hval, if_true]
    rw [if_pos (by simp [hid, hname])]

/-- C7 witness: with no explicit workspace id and an empty record the
run fails with noWorkspaceId; with a valid workspace id but no notebook
reference it fails with noNotebookReference, with no job submitted and
no config saved in either case. -/
theorem run_resolves_workspace_and_requires_notebook_reference_witness :
    DataAgent.run_in_fabric (fun _ => ⟨"j", "Completed", true, "1s"⟩)
      (fun _ => Except.ok []) "agent" "t"
      ⟨none, none, none, none, none, none, none⟩ none =
      (Except.error RunError.noWorkspaceId, ⟨[], []⟩) ∧
    DataAgent.run_in_fabric (fun _ => ⟨"j", "Completed", true, "1s"⟩)
      (fun _ => Except.ok []) "agent" "t"
      ⟨none, none, none, none, none, none, none⟩
      (some "00000000-0000-0000-0000-000000000000") =
      (Except.error RunError.noNotebookReference, ⟨[], []⟩) := by
  have h1 := (run_resolves_workspace_and_requires_notebook_reference
    (fun _ => ⟨"j", "Completed", true, "1s"⟩) (fun _ => Except.ok [])
    "agent" "t" ⟨none, none, none, none, none, none, none⟩ none).2.2.1
    (by decide) (by decide)
  have h2 := (run_resolves_workspace_and_requires_notebook_reference
    (fun _ => ⟨"j", "Completed", true, "1s"⟩) (fun _ => Except.ok [])
    "agent" "t" ⟨none, none, none, none, none, none, none⟩
    (some "00000000-0000-0000-0000-000000000000")).2.2.2
    "00000000-0000-0000-0000-000000000000" (by decide) (by decide)
    (by decide) (by decide)
  exact ⟨h1, h2⟩

/- ------------------------------------------------------------------
C8: post-run discovery failure is best-effort
------------------------------------------------------------------ -/

/-- C8: when the submitted job succeeds but the post-run data-agent
discovery raises (listAgents returns an error), run_in_fabric still
returns its result annotated with agent_found = false and the error
note, submits exactly the one job, and saves a config that keeps the
original agent_id and agent_url while persisting the execution summary
and the executed_successfully status. -/
theorem run_discovery_failure_is_best_effort
    (runJob : RunCall → RunResult)
    (listAgents : String → Except String (List FabricAgent))
    (agent_name now target e : String) (config : AgentConfig)
    (hval : validate_workspace_id target = true)
    (hname : truthy config.notebook_name = true)
    (hsuccess : (runJob (RunCall.byName target (config.notebook_name.getD ""))).success = true)
    (herr : listAgents target = Except.error e) :
    DataAgent.run_in_fabric runJob listAgents agent_name now config (some target) =
      (Except.ok
        ⟨runJob (RunCall.byName target (config.notebook_name.getD "")),
         some false, none, none, none, some e⟩,
       ⟨[RunCall.byName target (config.notebook_name.getD "")],
        [AgentConfig.mk config.workspace_id config.notebook_id
          config.notebook_name config.agent_id config.agent_url
          (some "executed_successfully")
          (some ⟨(runJob (RunCall.byName target (config.notebook_name.getD ""))).job_id,
                 (runJob (RunCall.byName target (config.notebook_name.getD ""))).status,
                 (runJob (RunCall.byName target (config.notebook_name.getD ""))).success,
                 (runJob (RunCall.byName target (config.notebook_name.getD ""))).total_runtime_str,
                 now⟩)]⟩) := by
  have htruthy : truthy (some target) = true := by
    cases he : target == "" with
    | true =>
        exfalso
        rw [show target = "" from by simpa using he] at hval
        revert hval
        decide
    | false => simp [truthy, he]
  unfold DataAgent.run_in_fabric
  rw [show resolveWorkspaceId (some target) config.workspace_id = some target from by
    simp [resolveWorkspaceId, htruthy]]
  simp only [hval, if_true]
  rw [if_neg (by simp [hname])]
  rw [if_pos hname]
  simp only [discoverAgent, hsuccess, if_true, herr]
  rfl

/-- C8 witness: concrete run where the job succeeds and discovery
raises "boom": the run returns ok with the error note, one job is
submitted, and the saved config keeps agent_id "A" and agent_url "U"
unchanged. -/
theorem run_discovery_failure_is_best_effort_witness :
    DataAgent.run_in_fabric (fun _ => ⟨"job-1", "Completed", true, "5s"⟩)
      (fun _ => Except.error "boom") "agent" "t"
      ⟨some "w", some "nid", some "nname", some "A", some "U",
       some "uploaded", none⟩
      (some "00000000-0000-0000-0000-000000000000") =
      (Except.ok ⟨⟨"job-1", "Completed", true, "5s"⟩, some false, none, none,
         none, some "boom"⟩,
       ⟨[RunCall.byName "00000000-0000-0000-0000-000000000000" "nname"],
        [AgentConfig.mk (some "w") (some "nid") (some "nname") (some "A")
          (some "U") (some "executed_successfully")
          (some ⟨"job-1", "Completed", true, "5s", "t"⟩)]⟩) := by
  have h := run_discovery_failure_is_best_effort
    (fun _ => ⟨"job-1", "Completed", true, "5s"⟩)
    (fun _ => Except.error "boom") "agent" "t"
    "00000000-0000-0000-0000-000000000000" "boom"
    ⟨some "w", some "nid", some "nname", some "A", some "U",
     some "uploaded", none⟩
    (by decide) (by decide) (by decide) rfl
  exact h

/- ------------------------------------------------------------------
C9: create without force fails atomically when the folder exists
------------------------------------------------------------------ -/

/-- C9: calling create for a name whose target folder already exists,
with force false, fails with the already-exists error and returns the
directory state unchanged: every file from the first scaffold call is
left byte-identical. -/
theorem create_fails_without_force_when_exists
    (name created_date now_str : String)
    (notebookTemplate readmeTemplate testingTemplate : Option String)
    (st : AgentDirState) (hpresent : st.present = true) :
    DataAgent.create name created_date now_str notebookTemplate
        readmeTemplate testingTemplate st false =
      (Except.error ("Agent \x27" ++ normalizeFolderName name ++
        "\x27 already exists"), st) := by
  unfold DataAgent.create
  rw [if_pos (by simp [hpresent])]

/-- C9 witness: scaffold twice for the same name; the second call fails
with the already-exists error and returns exactly the state produced by
the first call. -/
theorem create_fails_without_force_when_exists_witness :
    DataAgent.create "My Agent" "d2" "t2" (some "nb2") (some "rm2") (some "ts2")
      (DataAgent.create "My Agent" "d1" "t1" (some "nb data-agent-name")
        (some "rm \x7bagent_name\x7d") (some "ts") ⟨false, []⟩ false).2 false =
      (Except.error ("Agent \x27" ++ normalizeFolderName "My Agent" ++
        "\x27 already exists"),
       (DataAgent.create "My Agent" "d1" "t1" (some "nb data-agent-name")
        (some "rm \x7bagent_name\x7d") (some "ts") ⟨false, []⟩ false).2) :=
  create_fails_without_force_when_exists "My Agent" "d2" "t2" (some "nb2")
    (some "rm2") (some "ts2") _ (by decide)

/- ------------------------------------------------------------------
C10: run starts the job by display name, by id only as fallback
------------------------------------------------------------------ -/

/-- C10: with a valid workspace id, whenever the record holds a truthy
notebook name the single submitted job is run-by-name (so the recorded
id is never used, even when present); the run-by-id call is submitted
only when the name is falsy and the id truthy. -/
theorem run_prefers_notebook_name (runJob : RunCall → RunResult)
    (listAgents : String → Except String (List FabricAgent))
    (agent_name now target : String) (config : AgentConfig)
    (hval : validate_workspace_id target = true) :
    (truthy config.notebook_name = true →
       (DataAgent.run_in_fabric runJob listAgents agent_name now config
          (some target)).2.jobs =
         [RunCall.byName target (config.notebook_name.getD "")]) ∧
    (truthy config.notebook_name = false → truthy config.notebook_id = true →
       (DataAgent.run_in_fabric runJob listAgents agent_name now config
          (some target)).2.jobs =
         [RunCall.byId target (config.notebook_id.getD "")]) := by
  have htruthy : truthy (some target) = true := by
    cases he : target == "" with
    | true =>
        exfalso
        rw [show target = "" from by simpa using he] at hval
        revert hval
        decide
    | false => simp [truthy, he]
  have hres : resolveWorkspaceId (some target) config.workspace_id = some target := by
    simp [resolveWorkspaceId, htruthy]
  constructor
  · intro hname
    unfold DataAgent.run_in_fabric
    rw [hres]
    simp only [hval, if_true]
    rw [if_neg (by simp [hname])]
    rw [if_pos hname]
  · intro hname hid
    unfold DataAgent.run_in_fabric
    rw [hres]
    simp only [hval, if_true]
    rw [if_neg (by simp [hname, hid])]
    rw [if_neg (by simp [hname])]

/-- C10 witness: with both a notebook id and a notebook name recorded
the submitted job is run-by-name; with only an id it is run-by-id. -/
theorem run_prefers_notebook_name_witness :
    (DataAgent.run_in_fabric (fun _ => ⟨"j", "Completed", true, "1s"⟩)
      (fun _ => Except.ok []) "agent" "t"
      ⟨some "w", some "nid", some "nname", none, none, none, none⟩
      (some "00000000-0000-0000-0000-000000000000")).2.jobs =
      [RunCall.byName "00000000-0000-0000-0000-000000000000" "nname"] ∧
    (DataAgent.run_in_fabric (fun _ => ⟨"j", "Completed", true, "1s"⟩)
      (fun _ => Except.ok []) "agent" "t"
      ⟨some "w", some "nid", none, none, none, none, none⟩
      (some "00000000-0000-0000-0000-000000000000")).2.jobs =
      [RunCall.byId "00000000-0000-0000-0000-000000000000" "nid"] := by
  have h1 := (run_prefers_notebook_name (fun _ => ⟨"j", "Completed", true, "1s"⟩)
    (fun _ => Except.ok []) "agent" "t" "00000000-0000-0000-0000-000000000000"
    ⟨some "w", some "nid", some "nname", none, none, none, none⟩
    (by decide)).1 (by decide)
  have h2 := (run_prefers_notebook_name (fun _ => ⟨"j", "Completed", true, "1s"⟩)
    (fun _ => Except.ok []) "agent" "t" "00000000-0000-0000-0000-000000000000"
    ⟨some "w", some "nid", none, none, none, none, none⟩
    (by decide)).2 (by decide) (by decide)
  exact ⟨h1, h2⟩

end FabricNB
